import Mathlib

/-!
# DepthVision — formal model of the depth-displaced 3D viewer

Shallow embedding of `src/components/depth-vision/ThreeDeeCanvas.tsx`:
the mesh-building geometry parameters, the scene resource lifecycle
(`cleanupScene` and the rebuild effect), the camera preset and zoom
operations (via the three.js OrbitControls dolly contract the component
invokes), the turntable recording loop (`animateRecording`,
`stopRecordingAndDownload`), and the effect-cleanup function returned by
the main `useEffect`.

Numbers that the source manipulates as JS doubles are modelled as exact
rationals (`ℚ`), except mesh yaw angles, which involve `π` and are
modelled as reals (`ℝ`). Times are integer milliseconds (`ℤ`), matching
`Date.now()`.
-/

namespace DepthVision

/-! ## Mesh geometry (texture-load then-handler, lines 96-102)

`const planeWidth = 2;`
`const planeHeight = planeWidth / imageAspect;`
`new THREE.PlaneGeometry(planeWidth, planeHeight, 255, Math.round(255 / imageAspect))`
-/

/-- The four arguments the component passes to the `THREE.PlaneGeometry`
constructor: logical width, logical height, horizontal segment count,
vertical segment count. -/
structure PlaneGeometryParams where
  width : ℚ
  height : ℚ
  widthSegments : ℤ
  heightSegments : ℤ
deriving DecidableEq

/-- Geometry parameters built from the loaded color image's aspect
(`imageAspect = originalTexture.image.width / originalTexture.image.height`).
`Math.round` on a nonnegative JS number is `⌊x + 1/2⌋`, which is Mathlib's
`round`. -/
def buildGeometry (imageAspect : ℚ) : PlaneGeometryParams :=
  { width := 2
    height := 2 / imageAspect
    widthSegments := 255
    heightSegments := round ((255 : ℚ) / imageAspect) }

/-! ## Scene resource lifecycle (`cleanupScene`, lines 31-43, and the
rebuild path of the main `useEffect`, lines 88-126)

Live GPU resources are counted per kind; a mesh is identified by the
build counter that created it, standing for the object identity of
`meshRef.current`. -/

/-- State of the scene lifecycle: whether the renderer/scene/camera have
been lazily initialized (`rendererRef.current !== null`), which mesh (if
any) `meshRef.current` points to and the scene contains, the live
(allocated and not disposed) GPU resource counts, the
`isLoadingAssets` flag, and how many load-failure signals the catch
handler has emitted. -/
structure LifecycleState where
  sceneInit : Bool
  mesh : Option ℕ
  liveGeoms : ℕ
  liveMats : ℕ
  liveTexs : ℕ
  loading : Bool
  loadErrors : ℕ
  nextId : ℕ
deriving DecidableEq

/-- `cleanupScene` (lines 31-43): if `meshRef.current && sceneRef.current`,
remove the mesh from the scene, dispose its geometry, its material's
color texture (`material.map`) and displacement texture
(`material.displacementMap`), dispose the material, and null the mesh
reference; otherwise do nothing. -/
def cleanupScene (s : LifecycleState) : LifecycleState :=
  if s.mesh.isSome && s.sceneInit then
    { s with mesh := none
             liveGeoms := s.liveGeoms - 1
             liveMats := s.liveMats - 1
             liveTexs := s.liveTexs - 2 }
  else s

/-- The successful-load then-handler (lines 95-122): allocate one
geometry, one material and two textures, attach the new mesh, clear the
loading flag. -/
def buildMesh (s : LifecycleState) : LifecycleState :=
  { s with mesh := some s.nextId
           nextId := s.nextId + 1
           liveGeoms := s.liveGeoms + 1
           liveMats := s.liveMats + 1
           liveTexs := s.liveTexs + 2
           loading := false }

/-- One run of the main effect with a valid (color, depth) pair
(lines 55-126): set `isLoadingAssets`, lazily initialize the scene,
call `cleanupScene`, then start both texture loads. `loadOk = true`
models both loads resolving (then-handler builds and attaches the mesh);
`loadOk = false` models either load rejecting (catch handler logs one
error and clears the loading flag). -/
def effectValidInputs (loadOk : Bool) (s : LifecycleState) : LifecycleState :=
  let s1 : LifecycleState := { s with loading := true, sceneInit := true }
  let s2 := cleanupScene s1
  if loadOk then buildMesh s2
  else { s2 with loading := false, loadErrors := s2.loadErrors + 1 }

/-- A completed rebuild: effect run with both loads succeeding. -/
def rebuild : LifecycleState → LifecycleState := effectValidInputs true

/-- The component's initial lifecycle state: nothing initialized, no
mesh, no live resources. -/
def initState : LifecycleState :=
  { sceneInit := false, mesh := none, liveGeoms := 0, liveMats := 0
    liveTexs := 0, loading := false, loadErrors := 0, nextId := 0 }

/-- A state with one live mesh (id 0) and its four live resources, as
reached after one successful build. -/
def meshPresentState : LifecycleState :=
  { sceneInit := true, mesh := some 0, liveGeoms := 1, liveMats := 1
    liveTexs := 2, loading := false, loadErrors := 0, nextId := 1 }

/-! ## Camera presets (`setPresetView`, lines 160-182)

The handler reads `distance = camera.position.length()` (the current
orbit distance, since the target is the origin), calls
`controls.reset()` (which restores the target to the origin), then sets
the position per preset with the guard `distance > 0.1 ? distance : 1.5`
in every branch, and looks at the origin. The model is parameterized
directly by the current orbit distance. -/

/-- The five preset view buttons. -/
inductive Preset
  | front
  | top
  | sideR
  | sideL
  | reset
deriving DecidableEq

/-- Camera pose produced by a preset: position and orbit target. -/
structure CameraPose where
  position : ℚ × ℚ × ℚ
  target : ℚ × ℚ × ℚ
deriving DecidableEq

/-- The per-branch guard `distance > 0.1 ? distance : 1.5`. -/
def presetDistance (distance : ℚ) : ℚ :=
  if 1/10 < distance then distance else 3/2

/-- `setPresetView` as a function of the current orbit distance. The
`top` branch uses z-offset `0.001` (the source's epsilon avoiding a
degenerate look-at). All branches end with the target at the origin. -/
def setPresetView (preset : Preset) (distance : ℚ) : CameraPose :=
  match preset with
  | Preset.front => { position := (0, 0, presetDistance distance), target := (0, 0, 0) }
  | Preset.reset => { position := (0, 0, presetDistance distance), target := (0, 0, 0) }
  | Preset.top => { position := (0, presetDistance distance, 1/1000), target := (0, 0, 0) }
  | Preset.sideR => { position := (presetDistance distance, 0, 0), target := (0, 0, 0) }
  | Preset.sideL => { position := (-(presetDistance distance), 0, 0), target := (0, 0, 0) }

/-! ## Zoom (`handleZoom`, lines 184-192)

`handleZoom(factor)` calls `controls.dollyOut(factor)` then
`controls.update()`. In three.js OrbitControls, `dollyOut(f)` divides
the pending dolly scale by `f`, and `update()` sets
`radius := max(minDistance, min(maxDistance, radius · scale))`. The
component never configures the clamps, so they keep their defaults
`minDistance = 0` and `maxDistance = Infinity` (the `min` is then the
identity). The buttons invoke `handleZoom(1.2)` (zoom in) and
`handleZoom(0.8)` (zoom out). -/

/-- OrbitControls default `minDistance` (never overridden by the component). -/
def orbitMinDistance : ℚ := 0

/-- Effect of `dollyOut(dollyScale)` followed by `update()` on the orbit
radius, with the component's clamp configuration (`maxDistance`
infinite, so only the lower clamp applies). -/
def dollyOut (dollyScale : ℚ) (radius : ℚ) : ℚ :=
  max orbitMinDistance (radius / dollyScale)

/-- `handleZoom` on the orbit radius. -/
def handleZoom (factor : ℚ) (radius : ℚ) : ℚ :=
  dollyOut factor radius

/-- One press of the zoom-in button: `handleZoom(1.2)`. -/
def zoomInStep (radius : ℚ) : ℚ := handleZoom (6/5) radius

/-- One press of the zoom-out button: `handleZoom(0.8)`. -/
def zoomOutStep (radius : ℚ) : ℚ := handleZoom (4/5) radius

/-! ## Video export (`startRecording` lines 205-239,
`stopRecordingAndDownload` lines 241-261)

The RecordRTC recorder handle is `recorderRef.current`; the tick guard
tests `getState().includes('recording')`. Mesh yaw lives in
`meshRef.current.rotation.y` when a mesh exists. -/

/-- Recorder phase as observed through `getState()`. -/
inductive RecorderPhase
  | recording
  | stopped
deriving DecidableEq

/-- State touched by the capture pipeline: the recorder handle, the
`isRecording` React flag, the host-facing busy flag driven by
`onExportLoadingChange`, the current mesh's yaw (if a mesh is live), and
counters for triggered file downloads and finalized blobs. -/
@[ext]
structure ExportState where
  recorder : Option RecorderPhase
  isRecording : Bool
  exportBusy : Bool
  mesh : Option ℝ
  downloads : ℕ
  blobsFinalized : ℕ

/-- `const duration = 5000; // 5 seconds` (line 222). -/
def duration : ℤ := 5000

/-- `stopRecordingAndDownload` (lines 241-261): with a non-null
recorder, finalize the blob, trigger one download, null the recorder,
clear `isRecording` and the busy flag; with a null recorder, only clear
the two flags. -/
def stopRecordingAndDownload (s : ExportState) : ExportState :=
  match s.recorder with
  | some _ =>
    { s with blobsFinalized := s.blobsFinalized + 1
             downloads := s.downloads + 1
             recorder := none
             isRecording := false
             exportBusy := false }
  | none => { s with isRecording := false, exportBusy := false }

/-- `startRecording` (lines 205-217): raise the busy flag, set
`isRecording`, create and start the recorder. -/
def startRecording (s : ExportState) : ExportState :=
  { s with exportBusy := true
           isRecording := true
           recorder := some RecorderPhase.recording }

/-- `meshRef.current ? meshRef.current.rotation.y : 0` (line 220). -/
def recInitialRotationY (s : ExportState) : ℝ :=
  match s.mesh with
  | some r => r
  | none => 0

/-- The yaw written while recording (line 230):
`initialRotationY + (elapsedTime / duration) * Math.PI * 2`. -/
noncomputable def turntableYaw (init : ℝ) (elapsed : ℤ) : ℝ :=
  init + ((elapsed : ℝ) / ((duration : ℤ) : ℝ)) * Real.pi * 2

/-- One call of `animateRecording` (lines 224-237) at wall time `now`.
Returns the new state and whether another frame was scheduled
(`requestAnimationFrame(animateRecording)`). The guard returns
immediately unless the recorder exists and is recording; otherwise, if
`elapsed < duration` the mesh yaw (when a mesh exists) is advanced and a
next tick scheduled, else the recording is stopped and the yaw restored
to its initial value. -/
noncomputable def animateRecordingTick (init : ℝ) (startTime now : ℤ)
    (s : ExportState) : ExportState × Bool :=
  if s.recorder = some RecorderPhase.recording then
    if now - startTime < duration then
      ({ s with mesh := Option.map (fun _ => turntableYaw init (now - startTime)) s.mesh }, true)
    else
      let s1 := stopRecordingAndDownload s
      ({ s1 with mesh := Option.map (fun _ => init) s1.mesh }, false)
  else (s, false)

/-- Run the recording loop over a list of tick times (the wall-clock
instants at which animation frames fire). -/
noncomputable def runTicks (init : ℝ) (startTime : ℤ) (times : List ℤ)
    (s : ExportState) : ExportState :=
  match times with
  | [] => s
  | t :: ts => runTicks init startTime ts (animateRecordingTick init startTime t s).1

/-- A whole capture session: `startRecording` (which records the initial
yaw) followed by the recording loop at the given tick times. -/
noncomputable def runSession (s0 : ExportState) (startTime : ℤ)
    (times : List ℤ) : ExportState :=
  runTicks (recInitialRotationY s0) startTime times (startRecording s0)

/-- A quiescent pre-session state: no recorder, not busy, mesh at yaw 0. -/
def sessionDemoState : ExportState :=
  { recorder := none, isRecording := false, exportBusy := false
    mesh := some 0, downloads := 0, blobsFinalized := 0 }

/-- A mid-session state used to exercise a single tick. -/
def recDemoState : ExportState :=
  { recorder := some RecorderPhase.recording, isRecording := true
    exportBusy := true, mesh := some 0, downloads := 0, blobsFinalized := 0 }

/-! ## Effect cleanup (the function returned by the main `useEffect`,
lines 144-157)

The returned closure executes exactly one statement:
`window.removeEventListener('resize', handleResize)`. Every disposal
statement (removing the renderer's DOM element, `renderer.dispose()`,
`controls.dispose()`, nulling the refs) is commented out in the source,
and nothing stops an in-flight recorder. -/

/-- Mount-level state observed by the effect cleanup: whether the resize
listener is attached, whether `rendererRef.current` is set (the native
surface binding is live), whether the renderer's canvas is still a child
of the mount node, whether the OrbitControls were disposed, the current
mesh, the recorder handle, and the host busy flag. -/
structure MountState where
  resizeListenerAttached : Bool
  rendererRefSet : Bool
  domElementAttached : Bool
  controlsDisposed : Bool
  mesh : Option ℕ
  recorder : Option RecorderPhase
  exportBusy : Bool
deriving DecidableEq

/-- The effect cleanup exactly as implemented: remove the resize
listener and nothing else (lines 147-156 are commented out). -/
def effectCleanup (s : MountState) : MountState :=
  { s with resizeListenerAttached := false }

/-- The guard of the continuous render loop (line 129): it keeps
scheduling frames as long as `rendererRef.current` (and the other refs,
which are nulled together with it) are set. -/
def renderLoopGuardPasses (s : MountState) : Bool := s.rendererRefSet

/-- A mounted component with a built mesh and no recording in flight. -/
def mountedWithMesh : MountState :=
  { resizeListenerAttached := true, rendererRefSet := true
    domElementAttached := true, controlsDisposed := false
    mesh := some 0, recorder := none, exportBusy := false }

/-- A mounted component in the middle of a video export. -/
def midRecordingMount : MountState :=
  { mountedWithMesh with recorder := some RecorderPhase.recording, exportBusy := true }

/-! ## Theorems -/

/-- Claim C1: for every valid aspect ratio `a > 0` of the loaded color
image, the mesh geometry built by the mesh builder is a plane with
exactly 255 horizontal segments and `round(255/a)` vertical segments,
with logical width 2.0 and height `2.0/a`. -/
theorem buildGeometry_tessellation (a : ℚ) (_ha : 0 < a) :
    (buildGeometry a).widthSegments = 255 ∧
    (buildGeometry a).heightSegments = round ((255 : ℚ) / a) ∧
    (buildGeometry a).width = 2 ∧
    (buildGeometry a).height = 2 / a :=
  ⟨rfl, rfl, rfl, rfl⟩

/-- Witness for C1 at the aspect ratio 16/9: the tessellation formula
holds and evaluates to 143 vertical segments and height 9/8. -/
theorem buildGeometry_tessellation_witness :
    (0 : ℚ) < 16/9 ∧
    ((buildGeometry (16/9)).widthSegments = 255 ∧
      (buildGeometry (16/9)).heightSegments = round ((255 : ℚ) / (16/9)) ∧
      (buildGeometry (16/9)).width = 2 ∧
      (buildGeometry (16/9)).height = 2 / (16/9)) ∧
    (buildGeometry (16/9)).heightSegments = 143 ∧
    (buildGeometry (16/9)).height = 9/8 :=
  ⟨by norm_num, buildGeometry_tessellation (16/9) (by norm_num),
    by
      show round ((255 : ℚ) / (16/9)) = 143
      rw [round_eq, show (255 : ℚ) / (16/9) + 1/2 = 2303/16 by norm_num, Int.floor_eq_iff]
      norm_num,
    by
      show (2 : ℚ) / (16/9) = 9/8
      norm_num⟩

/-- Each rebuild (dispose of the prior mesh's geometry, material and two
textures, then construction of the new mesh) maps a single-mesh resource
state to a single-mesh resource state. -/
theorem rebuild_preserves_single_mesh (s : LifecycleState)
    (h : s.liveGeoms = 1 ∧ s.liveMats = 1 ∧ s.liveTexs = 2 ∧ s.mesh.isSome = true) :
    (rebuild s).liveGeoms = 1 ∧ (rebuild s).liveMats = 1 ∧
      (rebuild s).liveTexs = 2 ∧ (rebuild s).mesh.isSome = true := by
  obtain ⟨h1, h2, h3, h4⟩ := h
  simp [rebuild, effectValidInputs, cleanupScene, buildMesh, h1, h2, h3, h4]

/-- Claim C2: for every number `n ≥ 1` of sequential rebuilds with valid
input pairs, each rebuild disposes the prior mesh's geometry, material
and both textures before attaching the new mesh, so the live
GPU-resource count attached to the scene after `n` rebuilds equals the
count for a single mesh: one geometry, one material, two textures. -/
theorem rebuild_no_resource_growth (n : ℕ) (hn : 1 ≤ n) :
    (rebuild^[n] initState).liveGeoms = 1 ∧ (rebuild^[n] initState).liveMats = 1 ∧
      (rebuild^[n] initState).liveTexs = 2 ∧ (rebuild^[n] initState).mesh.isSome = true := by
  obtain ⟨m, rfl⟩ := Nat.exists_eq_add_of_le hn
  clear hn
  induction m with
  | zero => decide
  | succ k ih =>
    have hiter : rebuild^[1 + (k + 1)] initState = rebuild (rebuild^[1 + k] initState) := by
      have h1 : 1 + (k + 1) = (1 + k) + 1 := by omega
      rw [h1, Function.iterate_succ_apply']
    rw [hiter]
    exact rebuild_preserves_single_mesh _ ih

/-- Witness for C2 at `n = 3`: three sequential rebuilds leave exactly
the resources of a single mesh. -/
theorem rebuild_no_resource_growth_witness :
    1 ≤ 3 ∧
    ((rebuild^[3] initState).liveGeoms = 1 ∧ (rebuild^[3] initState).liveMats = 1 ∧
      (rebuild^[3] initState).liveTexs = 2 ∧ (rebuild^[3] initState).mesh.isSome = true) :=
  ⟨by decide, rebuild_no_resource_growth 3 (by decide)⟩

/-- Claim C3, counterexample: after a rebuild whose texture loads fail,
the scene is not in its previous state — the prior mesh (id 0, present
in `meshPresentState`) is no longer attached, because `cleanupScene`
ran before the loads began. -/
theorem loadFailure_prior_mesh_gone :
    (effectValidInputs false meshPresentState).mesh ≠ meshPresentState.mesh := by
  decide

/-- Claim C3, amended: if either of the two concurrent texture loads
fails, the pipeline emits a single load-failure signal and clears the
loading indicator, and no partial or placeholder mesh exists; but the
scene is left with no mesh at all (the prior mesh, if any, was already
disposed before the loads began), not in its previous state. -/
theorem loadFailure_spec (s : LifecycleState) :
    (effectValidInputs false s).mesh = none ∧
    (effectValidInputs false s).loading = false ∧
    (effectValidInputs false s).loadErrors = s.loadErrors + 1 := by
  rcases hm : s.mesh with _ | id
  · simp [effectValidInputs, cleanupScene, hm]
  · simp [effectValidInputs, cleanupScene, hm]

/-- Claim C8, counterexample: for the current orbit distance 1/20 (≤ the
0.1 guard), the `front` preset does not place the camera at distance
1/20 on the +Z axis — the source substitutes the default 1.5. -/
theorem setPresetView_small_distance_cex :
    (setPresetView Preset.front (1/20)).position ≠ ((0 : ℚ), (0 : ℚ), (1/20 : ℚ)) := by
  have h : ¬ ((1 : ℚ)/10 < 1/20) := by norm_num
  have hpd : presetDistance (1/20) = 3/2 := by
    unfold presetDistance
    exact if_neg h
  show ((0 : ℚ), (0 : ℚ), presetDistance (1/20)) ≠ ((0 : ℚ), (0 : ℚ), (1/20 : ℚ))
  rw [hpd]
  simp only [ne_eq, Prod.mk.injEq]
  norm_num

/-- Claim C8, amended: for every current orbit distance `d > 0.1`,
`top` sets the camera position to `(0, d, ε)` with `ε = 0.001`,
`front`/`reset` set it to `(0, 0, d)`, and `sideR`/`sideL` set it to
`(d, 0, 0)`/`(−d, 0, 0)`; every preset preserves the orbit distance and
resets the orbit target to the origin. For `d ≤ 0.1` the presets use the
default distance 1.5 instead of `d`. -/
theorem setPresetView_spec (d : ℚ) (hd : 1/10 < d) :
    setPresetView Preset.top d = { position := (0, d, 1/1000), target := (0, 0, 0) } ∧
    setPresetView Preset.front d = { position := (0, 0, d), target := (0, 0, 0) } ∧
    setPresetView Preset.reset d = { position := (0, 0, d), target := (0, 0, 0) } ∧
    setPresetView Preset.sideR d = { position := (d, 0, 0), target := (0, 0, 0) } ∧
    setPresetView Preset.sideL d = { position := (-d, 0, 0), target := (0, 0, 0) } := by
  have hpd : presetDistance d = d := by
    unfold presetDistance
    exact if_pos hd
  simp [setPresetView, hpd]

/-- Witness for the amended C8 at distance 2. -/
theorem setPresetView_spec_witness :
    (1/10 : ℚ) < 2 ∧
    setPresetView Preset.top 2 = { position := (0, 2, 1/1000), target := (0, 0, 0) } ∧
    setPresetView Preset.front 2 = { position := (0, 0, 2), target := (0, 0, 0) } ∧
    setPresetView Preset.sideL 2 = { position := (-2, 0, 0), target := (0, 0, 0) } :=
  ⟨by norm_num, (setPresetView_spec 2 (by norm_num)).1,
    (setPresetView_spec 2 (by norm_num)).2.1,
    (setPresetView_spec 2 (by norm_num)).2.2.2.2⟩

/-- Iterating the zoom-out button multiplies the orbit radius by 5/4
each time (OrbitControls `maxDistance` is infinite, so no clamp ever
applies). -/
theorem zoomOutStep_iterate (r : ℚ) (hr : 0 ≤ r) (k : ℕ) :
    zoomOutStep^[k] r = (5/4 : ℚ) ^ k * r := by
  induction k with
  | zero => simp
  | succ n ih =>
    rw [Function.iterate_succ_apply', ih, zoomOutStep, handleZoom, dollyOut, orbitMinDistance]
    rw [max_eq_right (by positivity)]
    ring

/-- Claim C9, counterexample: one zoom-in followed by one zoom-out does
not restore the orbit distance 3/2 — the two operations are not
inverses (the factors are 1.2 and 0.8, and 1/0.8 ≠ 1.2). -/
theorem zoom_not_inverse_cex :
    zoomOutStep (zoomInStep (3/2)) ≠ (3/2 : ℚ) := by
  have h1 : zoomInStep (3/2) = 5/4 := by
    rw [zoomInStep, handleZoom, dollyOut, orbitMinDistance, max_eq_right (by norm_num)]
    norm_num
  rw [h1, zoomOutStep, handleZoom, dollyOut, orbitMinDistance, max_eq_right (by norm_num)]
  norm_num

/-- Claim C9, amended: for every orbit distance `r > 0`, one zoom-in
strictly decreases the distance and keeps it positive (so the camera
never inverts, but no positive minimum clamp is ever reached —
`minDistance` is 0), one zoom-out strictly increases it, zoom-out after
zoom-in multiplies the distance by 25/24 instead of restoring it, and
repeated zoom-out grows the distance beyond every bound (`maxDistance`
is infinite: no maximum clamp exists). -/
theorem zoom_monotone_spec (r : ℚ) (hr : 0 < r) :
    zoomInStep r < r ∧ 0 < zoomInStep r ∧ r < zoomOutStep r ∧
    zoomOutStep (zoomInStep r) = (25/24) * r ∧
    ∀ M : ℚ, ∃ k : ℕ, M < zoomOutStep^[k] r := by
  have hin : zoomInStep r = (5/6) * r := by
    rw [zoomInStep, handleZoom, dollyOut, orbitMinDistance, max_eq_right (by positivity)]
    ring
  have hout : ∀ x : ℚ, 0 ≤ x → zoomOutStep x = (5/4) * x := by
    intro x hx
    rw [zoomOutStep, handleZoom, dollyOut, orbitMinDistance, max_eq_right (by positivity)]
    ring
  refine ⟨?_, ?_, ?_, ?_, ?_⟩
  · rw [hin]; linarith
  · rw [hin]; linarith
  · rw [hout r hr.le]; linarith
  · rw [hin, hout ((5/6) * r) (by positivity)]; ring
  · intro M
    obtain ⟨k, hk⟩ := pow_unbounded_of_one_lt (M / r) (by norm_num : (1 : ℚ) < 5/4)
    refine ⟨k, ?_⟩
    rw [zoomOutStep_iterate r hr.le k]
    calc M = M / r * r := by rw [div_mul_cancel₀ _ hr.ne']
    _ < (5/4) ^ k * r := mul_lt_mul_of_pos_right hk hr

/-- Witness for the amended C9 at distance 3/2. -/
theorem zoom_monotone_spec_witness :
    (0 : ℚ) < 3/2 ∧ zoomInStep (3/2) < 3/2 ∧ (0 : ℚ) < zoomInStep (3/2) ∧
    (3 / 2 : ℚ) < zoomOutStep (3/2) ∧
    zoomOutStep (zoomInStep (3/2)) = (25/24) * (3/2) :=
  ⟨by norm_num, (zoom_monotone_spec (3/2) (by norm_num)).1,
    (zoom_monotone_spec (3/2) (by norm_num)).2.1,
    (zoom_monotone_spec (3/2) (by norm_num)).2.2.1,
    (zoom_monotone_spec (3/2) (by norm_num)).2.2.2.1⟩

/-- `stopRecordingAndDownload` never touches the mesh (and hence the yaw). -/
theorem stopRecordingAndDownload_mesh (s : ExportState) :
    (stopRecordingAndDownload s).mesh = s.mesh := by
  rcases hsr : s.recorder with _ | p <;> simp [stopRecordingAndDownload, hsr]

/-- `stopRecordingAndDownload` with a live recorder: finalize one blob,
one download, release the recorder, clear both flags. -/
theorem stopRecordingAndDownload_some (s : ExportState) (p : RecorderPhase)
    (h : s.recorder = some p) :
    stopRecordingAndDownload s =
      { s with blobsFinalized := s.blobsFinalized + 1
               downloads := s.downloads + 1
               recorder := none
               isRecording := false
               exportBusy := false } := by
  simp [stopRecordingAndDownload, h]

/-- `stopRecordingAndDownload` with no recorder: only clear the flags —
no blob, no download. -/
theorem stopRecordingAndDownload_none (s : ExportState) (h : s.recorder = none) :
    stopRecordingAndDownload s = { s with isRecording := false, exportBusy := false } := by
  simp [stopRecordingAndDownload, h]

/-- The recording loop over a concatenation runs the two halves in
sequence. -/
theorem runTicks_append (init : ℝ) (startTime : ℤ) (a b : List ℤ) (s : ExportState) :
    runTicks init startTime (a ++ b) s =
      runTicks init startTime b (runTicks init startTime a s) := by
  induction a generalizing s with
  | nil => rfl
  | cons t ts ih =>
    simp only [List.cons_append, runTicks]
    exact ih _

/-- Ticks fired after the recorder is gone are no-ops (the guard at the
top of `animateRecording` returns immediately). -/
theorem runTicks_stopped (init : ℝ) (startTime : ℤ) (times : List ℤ) (s : ExportState)
    (h : s.recorder = none) :
    runTicks init startTime times s = s := by
  induction times with
  | nil => rfl
  | cons t ts ih =>
    have hstep : (animateRecordingTick init startTime t s).1 = s := by
      unfold animateRecordingTick
      rw [if_neg (by rw [h]; simp)]
    rw [runTicks, hstep, ih]

/-- While every tick's elapsed time is below the duration, the recording
loop keeps the recorder recording, preserves the busy/recording flags
and the download and blob counters, and keeps a mesh present iff one was
present. -/
theorem runTicks_preserves (init : ℝ) (startTime : ℤ) (times : List ℤ) (s : ExportState)
    (hrec : s.recorder = some RecorderPhase.recording)
    (h : ∀ t ∈ times, t - startTime < duration) :
    (runTicks init startTime times s).recorder = some RecorderPhase.recording ∧
    (runTicks init startTime times s).exportBusy = s.exportBusy ∧
    (runTicks init startTime times s).isRecording = s.isRecording ∧
    (runTicks init startTime times s).downloads = s.downloads ∧
    (runTicks init startTime times s).blobsFinalized = s.blobsFinalized ∧
    (runTicks init startTime times s).mesh.isSome = s.mesh.isSome := by
  induction times generalizing s with
  | nil => exact ⟨hrec, rfl, rfl, rfl, rfl, rfl⟩
  | cons t ts ih =>
    have ht : t - startTime < duration := h t (List.mem_cons_self t ts)
    have hstep : (animateRecordingTick init startTime t s).1 =
        { s with mesh := Option.map (fun _ => turntableYaw init (t - startTime)) s.mesh } := by
      unfold animateRecordingTick
      rw [if_pos hrec, if_pos ht]
    obtain ⟨r1, r2, r3, r4, r5, r6⟩ :=
      ih { s with mesh := Option.map (fun _ => turntableYaw init (t - startTime)) s.mesh }
        hrec (fun u hu => h u (List.mem_cons_of_mem t hu))
    rw [runTicks, hstep]
    exact ⟨r1, r2, r3, r4, r5, by rw [r6]; simp⟩

/-- A session tail: pre-duration ticks followed by one tick at or past
the duration finalizes the recording and restores the initial yaw. -/
theorem runTicks_session (init : ℝ) (startTime tStop : ℤ) (pre : List ℤ) (s1 : ExportState)
    (h1rec : s1.recorder = some RecorderPhase.recording)
    (hpre : ∀ t ∈ pre, t - startTime < duration)
    (hstop : duration ≤ tStop - startTime) :
    runTicks init startTime (pre ++ [tStop]) s1 =
      { stopRecordingAndDownload (runTicks init startTime pre s1) with
        mesh := Option.map (fun _ => init) (runTicks init startTime pre s1).mesh } := by
  rw [runTicks_append]
  have p1 := (runTicks_preserves init startTime pre s1 h1rec hpre).1
  show runTicks init startTime [tStop] (runTicks init startTime pre s1) = _
  simp only [runTicks]
  unfold animateRecordingTick
  rw [if_pos p1, if_neg (not_lt.mpr hstop)]
  show ({ stopRecordingAndDownload (runTicks init startTime pre s1) with
      mesh := Option.map (fun _ => init)
        (stopRecordingAndDownload (runTicks init startTime pre s1)).mesh }) = _
  rw [stopRecordingAndDownload_mesh]

/-- Claim C4: during a video export, a tick of the recording loop with
`elapsed = now − startTime < duration` (5000 ms) sets the mesh yaw to
`initial + (elapsed/duration)·2π` and schedules another tick; a tick at
or past the duration schedules no further frame (and restores the yaw
to its initial value after stopping). -/
theorem animateRecording_tick_spec (init : ℝ) (startTime now : ℤ) (s : ExportState)
    (hrec : s.recorder = some RecorderPhase.recording) :
    (now - startTime < 5000 →
      animateRecordingTick init startTime now s =
        ({ s with
            mesh := s.mesh.map (fun _ =>
              init + (((now - startTime : ℤ) : ℝ) / (5000 : ℝ)) * (2 * Real.pi)) },
          true)) ∧
    (5000 ≤ now - startTime →
      (animateRecordingTick init startTime now s).2 = false ∧
      (animateRecordingTick init startTime now s).1.mesh = Option.map (fun _ => init) s.mesh) := by
  constructor
  · intro h
    unfold animateRecordingTick
    rw [if_pos hrec, if_pos (show now - startTime < duration from h)]
    have hy : (fun _ : ℝ => turntableYaw init (now - startTime)) =
        (fun _ : ℝ => init + (((now - startTime : ℤ) : ℝ) / (5000 : ℝ)) * (2 * Real.pi)) := by
      funext r
      unfold turntableYaw duration
      push_cast
      ring
    rw [hy]
  · intro h
    unfold animateRecordingTick
    rw [if_pos hrec, if_neg (not_lt.mpr (show duration ≤ now - startTime from h))]
    exact ⟨rfl, stopRecordingAndDownload_mesh s ▸ rfl⟩

/-- Witness for C4: a tick 1000 ms into a recording advances the yaw to
one fifth of a full turn and schedules the next frame. -/
theorem animateRecording_tick_spec_witness :
    recDemoState.recorder = some RecorderPhase.recording ∧
    ((1000 : ℤ) - 0 < 5000) ∧
    animateRecordingTick 0 0 1000 recDemoState =
      ({ recDemoState with
          mesh := recDemoState.mesh.map (fun _ =>
            (0 : ℝ) + ((((1000 : ℤ) - 0 : ℤ) : ℝ) / (5000 : ℝ)) * (2 * Real.pi)) },
        true) :=
  ⟨rfl, by decide, (animateRecording_tick_spec 0 0 1000 recDemoState rfl).1 (by decide)⟩

/-- Claim C5: a capture session run to its stop tick finalizes exactly
one blob, triggers exactly one download, restores the mesh yaw to its
pre-recording value, releases the recorder, lowers the busy flag and the
recording flag, keeps the busy flag raised throughout the pre-duration
ticks, ignores any stray ticks after the stop, and a further
`stopRecordingAndDownload` call produces no second download. -/
theorem captureSession_stop_spec (s0 : ExportState) (r0 : ℝ) (startTime tStop : ℤ)
    (pre post : List ℤ)
    (hmesh : s0.mesh = some r0)
    (hpre : ∀ t ∈ pre, t - startTime < duration)
    (hstop : duration ≤ tStop - startTime) :
    (runSession s0 startTime (pre ++ [tStop])).blobsFinalized = s0.blobsFinalized + 1 ∧
    (runSession s0 startTime (pre ++ [tStop])).downloads = s0.downloads + 1 ∧
    (runSession s0 startTime (pre ++ [tStop])).mesh = s0.mesh ∧
    (runSession s0 startTime (pre ++ [tStop])).recorder = none ∧
    (runSession s0 startTime (pre ++ [tStop])).exportBusy = false ∧
    (runSession s0 startTime (pre ++ [tStop])).isRecording = false ∧
    (∀ p, p <+: pre → (runSession s0 startTime p).exportBusy = true) ∧
    runTicks (recInitialRotationY s0) startTime post (runSession s0 startTime (pre ++ [tStop])) =
      runSession s0 startTime (pre ++ [tStop]) ∧
    (stopRecordingAndDownload (runSession s0 startTime (pre ++ [tStop]))).downloads =
      (runSession s0 startTime (pre ++ [tStop])).downloads := by
  have hinit : recInitialRotationY s0 = r0 := by simp [recInitialRotationY, hmesh]
  have h1rec : (startRecording s0).recorder = some RecorderPhase.recording := rfl
  obtain ⟨p1, p2, p3, p4, p5, p6⟩ :=
    runTicks_preserves (recInitialRotationY s0) startTime pre (startRecording s0) h1rec hpre
  have hses : runSession s0 startTime (pre ++ [tStop]) =
      { stopRecordingAndDownload
          (runTicks (recInitialRotationY s0) startTime pre (startRecording s0)) with
        mesh := Option.map (fun _ => recInitialRotationY s0)
          (runTicks (recInitialRotationY s0) startTime pre (startRecording s0)).mesh } :=
    runTicks_session _ _ _ _ _ h1rec hpre hstop
  have hstopsp := stopRecordingAndDownload_some _ RecorderPhase.recording p1
  have hPsome :
      (runTicks (recInitialRotationY s0) startTime pre (startRecording s0)).mesh.isSome = true := by
    rw [p6]
    show s0.mesh.isSome = true
    rw [hmesh]
    rfl
  obtain ⟨x, hx⟩ := Option.isSome_iff_exists.mp hPsome
  have hfinal : runSession s0 startTime (pre ++ [tStop]) =
      { recorder := none, isRecording := false, exportBusy := false
        mesh := some r0, downloads := s0.downloads + 1
        blobsFinalized := s0.blobsFinalized + 1 } := by
    rw [hses, hstopsp]
    apply ExportState.ext
    · rfl
    · rfl
    · rfl
    · simp only [hx, Option.map_some']
      rw [hinit]
    · show (runTicks (recInitialRotationY s0) startTime pre (startRecording s0)).downloads + 1 =
        s0.downloads + 1
      rw [p4]
      rfl
    · show (runTicks (recInitialRotationY s0) startTime pre (startRecording s0)).blobsFinalized + 1 =
        s0.blobsFinalized + 1
      rw [p5]
      rfl
  refine ⟨?_, ?_, ?_, ?_, ?_, ?_, ?_, ?_, ?_⟩
  · rw [hfinal]
  · rw [hfinal]
  · rw [hfinal, hmesh]
  · rw [hfinal]
  · rw [hfinal]
  · rw [hfinal]
  · intro p hp
    exact ((runTicks_preserves (recInitialRotationY s0) startTime p (startRecording s0) h1rec
      (fun t ht => hpre t (hp.subset ht))).2.1).trans rfl
  · exact runTicks_stopped _ _ post _ (by rw [hfinal])
  · rw [stopRecordingAndDownload_none _ (by rw [hfinal])]

/-- Witness for C5: a session started at yaw 0, ticked at 1000 ms and
3000 ms and stopped by the tick at 6000 ms, with a stray tick at
9000 ms. -/
theorem captureSession_stop_spec_witness :
    sessionDemoState.mesh = some (0 : ℝ) ∧
    (∀ t ∈ [(1000 : ℤ), 3000], t - 0 < duration) ∧
    duration ≤ (6000 : ℤ) - 0 ∧
    (runSession sessionDemoState 0 ([1000, 3000] ++ [6000])).blobsFinalized =
      sessionDemoState.blobsFinalized + 1 ∧
    (runSession sessionDemoState 0 ([1000, 3000] ++ [6000])).downloads =
      sessionDemoState.downloads + 1 ∧
    (runSession sessionDemoState 0 ([1000, 3000] ++ [6000])).mesh = sessionDemoState.mesh ∧
    (runSession sessionDemoState 0 ([1000, 3000] ++ [6000])).exportBusy = false ∧
    (runSession sessionDemoState 0 [1000]).exportBusy = true := by
  have h := captureSession_stop_spec sessionDemoState 0 0 6000 [1000, 3000] [9000]
    rfl (by decide) (by decide)
  exact ⟨rfl, by decide, by decide, h.1, h.2.1, h.2.2.1, h.2.2.2.2.1,
    h.2.2.2.2.2.2.1 [1000] ⟨[3000], rfl⟩⟩

/-- Claim C6 (code divergence): when inputs change or the component
unmounts mid-recording, the effect cleanup does not tear the capture
session down — the recorder is still present and recording and the
export-busy signal is still raised afterwards, so no export-finished
signal fires at teardown. Only the resize listener is removed. -/
theorem effectCleanup_keeps_recording :
    (effectCleanup midRecordingMount).recorder = some RecorderPhase.recording ∧
    (effectCleanup midRecordingMount).exportBusy = true ∧
    effectCleanup midRecordingMount =
      { midRecordingMount with resizeListenerAttached := false } :=
  ⟨rfl, rfl, rfl⟩

/-- Claim C7 (code divergence): the effect cleanup run on unmount
releases nothing: the renderer's native surface binding is retained, the
camera controls are not disposed, the mesh is still attached, and the
render-loop guard still passes (so frame callbacks keep firing). Only
the resize listener is removed. -/
theorem effectCleanup_releases_nothing :
    (effectCleanup mountedWithMesh).rendererRefSet = true ∧
    (effectCleanup mountedWithMesh).domElementAttached = true ∧
    (effectCleanup mountedWithMesh).controlsDisposed = false ∧
    (effectCleanup mountedWithMesh).mesh = some 0 ∧
    renderLoopGuardPasses (effectCleanup mountedWithMesh) = true ∧
    (effectCleanup mountedWithMesh).resizeListenerAttached = false :=
  ⟨rfl, rfl, rfl, rfl, rfl, rfl⟩

/-- Claim C10: `cleanupScene` is idempotent and total — after one call
on an initialized scene the mesh reference is null, a second consecutive
call changes nothing, and calling it with no mesh or with the scene not
yet initialized is a no-op rather than an error. -/
theorem cleanupScene_idempotent_total (s : LifecycleState) :
    cleanupScene (cleanupScene s) = cleanupScene s ∧
    (s.sceneInit = true → (cleanupScene s).mesh = none) ∧
    (s.mesh = none → cleanupScene s = s) ∧
    (s.sceneInit = false → cleanupScene s = s) := by
  rcases hm : s.mesh with _ | id
  all_goals rcases hi : s.sceneInit
  all_goals simp [cleanupScene, hm, hi]

/-- Witness for C10: the facts at a state with a live mesh and at the
empty initial state. -/
theorem cleanupScene_idempotent_total_witness :
    (meshPresentState.sceneInit = true ∧ (cleanupScene meshPresentState).mesh = none) ∧
    (initState.mesh = none ∧ cleanupScene initState = initState) ∧
    cleanupScene (cleanupScene meshPresentState) = cleanupScene meshPresentState :=
  ⟨⟨rfl, (cleanupScene_idempotent_total meshPresentState).2.1 rfl⟩,
    ⟨rfl, (cleanupScene_idempotent_total initState).2.2.1 rfl⟩,
    (cleanupScene_idempotent_total meshPresentState).1⟩

end DepthVision
